import Mathlib

/-!
Shallow embedding of the bulk contact-import pipeline of
`src/main.py` (`upload_contacts`, lines 314-531), together with the
storage collaborator of `src/db/database.py` as an abstract state.

Conventions of the embedding:
* A CSV row (one `csv.DictReader` record) is an association list from
  column name to string value; `row.get(field, '')` is `getField`.
* The parsed upload is a `CsvFile`: `fieldnames` is `none` when the file
  has no header line (Python's `DictReader.fieldnames is None`), and the
  list of data rows otherwise.
* The whole handler body sits inside `try ... except Exception`, so the
  fallible externals (file decode, email snapshot read, bulk write) are
  modelled by an `Except` input and by `fetchOk` / `writeOk` flags of the
  database state; the corresponding `...Err` strings stand for `str(e)`.
* Python iterates `required_fields` (a `set`) when collecting missing
  values and missing headers; set iteration order is unspecified, and the
  embedding fixes it to the declared order of `required_fields_ordered`.
* `str.strip` / `str.lower` / `str.upper` are the structural helpers
  `strip` / `lower` / `upper` below (the data of every claim is ASCII).
-/

namespace MedicarePortal

/-- A single-quote character, used inside several of the source's
literal messages. -/
def squote : String := String.singleton (Char.ofNat 39)

/-- Python `str.strip` whitespace (the ASCII part). -/
def isPySpace (c : Char) : Bool :=
  c == ' ' || c == '\t' || c == '\n' || c == '\r' || c.toNat == 11 || c.toNat == 12

/-- `str.strip()`. -/
def strip (s : String) : String :=
  String.mk (((s.data.dropWhile isPySpace).reverse.dropWhile isPySpace).reverse)

def lowerChar (c : Char) : Char :=
  if 65 ≤ c.toNat && c.toNat ≤ 90 then Char.ofNat (c.toNat + 32) else c

def upperChar (c : Char) : Char :=
  if 97 ≤ c.toNat && c.toNat ≤ 122 then Char.ofNat (c.toNat - 32) else c

/-- `str.lower()` (ASCII; every string the pipeline lowers is ASCII). -/
def lower (s : String) : String := String.mk (s.data.map lowerChar)

/-- `str.upper()` (ASCII). -/
def upper (s : String) : String := String.mk (s.data.map upperChar)

/-- One raw CSV record: column name to raw string value. -/
def RawRow := List (String × String)

/-- `row.get(field, '')` of `csv.DictReader` records. -/
def getField (row : RawRow) (f : String) : String :=
  (List.lookup f row).getD ""

/-- `required_fields_ordered` of `src/main.py` lines 326-337. -/
def required_fields_ordered : List String :=
  ["First Name", "Last Name", "Email", "Current Carrier", "Plan Type",
   "Effective Date", "Birth Date", "Tobacco User", "Gender", "ZIP Code"]

/-- `', '.join(...)` -/
def joinCommaSpace (l : List String) : String := String.intercalate ", " l

/-- A calendar date as produced by `datetime.strptime(s, '%Y-%m-%d').date()`. -/
structure PDate where
  year : Nat
  month : Nat
  day : Nat
deriving Repr, DecidableEq

def isLeapYear (y : Nat) : Bool :=
  (y % 4 == 0 && y % 100 != 0) || (y % 400 == 0)

def daysInMonth (y m : Nat) : Nat :=
  if m == 2 then (if isLeapYear y then 29 else 28)
  else if m == 4 || m == 6 || m == 9 || m == 11 then 30
  else 31

/-- Split a character list at every dash, keeping empty groups. -/
def splitDash : List Char → List (List Char)
  | [] => [[]]
  | c :: cs =>
    let r := splitDash cs
    if c == '-' then [] :: r
    else
      match r with
      | [] => [[c]]
      | g :: gs => (c :: g) :: gs

def allDigitsL (l : List Char) : Bool :=
  !l.isEmpty && l.all (fun c => 48 ≤ c.toNat && c.toNat ≤ 57)

/-- Numeric value of a digit string. -/
def digitsVal (l : List Char) : Nat :=
  l.foldl (fun a c => a * 10 + (c.toNat - 48)) 0

/-- `datetime.strptime(s, '%Y-%m-%d')`: exactly four digits of year,
one or two digits of month and day, the whole string consumed, and the
date must exist on the calendar (CPython validates the ranges in the
`_strptime` regex and the `datetime` constructor; year 0 is rejected
because `datetime.MINYEAR` is 1). Returns `none` where Python raises
`ValueError`. -/
def parseDate (s : String) : Option PDate :=
  match splitDash s.data with
  | [ys, ms, ds] =>
    if allDigitsL ys && allDigitsL ms && allDigitsL ds
        && ys.length == 4 && (ms.length == 1 || ms.length == 2)
        && (ds.length == 1 || ds.length == 2) then
      let y := digitsVal ys
      let m := digitsVal ms
      let d := digitsVal ds
      if 1 ≤ y && 1 ≤ m && m ≤ 12 && 1 ≤ d && d ≤ daysInMonth y m then
        some ⟨y, m, d⟩
      else none
    else none
  | _ => none

def pad2 (n : Nat) : String := if n < 10 then "0" ++ toString n else toString n

def pad4 (n : Nat) : String :=
  if n < 10 then "000" ++ toString n
  else if n < 100 then "00" ++ toString n
  else if n < 1000 then "0" ++ toString n
  else toString n

/-- `date.isoformat()`. -/
def PDate.iso (d : PDate) : String :=
  pad4 d.year ++ "-" ++ pad2 d.month ++ "-" ++ pad2 d.day

/-- One tuple of `params_list` (`src/main.py` lines 421-433). -/
structure ContactParams where
  first_name : String
  last_name : String
  email : String
  current_carrier : String
  plan_type : String
  effective_date : String
  birth_date : String
  tobacco_user : Nat
  gender : String
  state : String
  zip_code : String
deriving Repr, DecidableEq

/-- One `error_row` dict: row number, the ten original field values in
`required_fields_ordered` order, and the single error message. -/
structure ErrorRow where
  rowNum : Nat
  values : List String
  error : String
deriving Repr, DecidableEq

/-- The fields consulted by the per-row rules, after the source's
trimming / case normalisation. -/
def zipOf (row : RawRow) : String := strip (getField row "ZIP Code")

def genderOf (row : RawRow) : String := upper (strip (getField row "Gender"))

def emailOf (row : RawRow) : String := lower (strip (getField row "Email"))

def edOf (row : RawRow) : String := strip (getField row "Effective Date")

def bdOf (row : RawRow) : String := strip (getField row "Birth Date")

def tobaccoOf (row : RawRow) : String := lower (strip (getField row "Tobacco User"))

/-- `row['Tobacco User'].strip().lower() in ['yes', 'true', '1', 'y']`. -/
def tobacco_truthy (row : RawRow) : Bool :=
  ["yes", "true", "1", "y"].contains (tobaccoOf row)

/-- `missing_values` of line 367: the required fields whose trimmed value
is blank (the source iterates the set `required_fields`; the embedding
fixes the declared order). -/
def missing_values (row : RawRow) : List String :=
  required_fields_ordered.filter (fun f => strip (getField row f) == "")

/-- The gender rejection message of line 400. -/
def genderMsg (g : String) : String :=
  "Invalid gender: " ++ g ++ ". Must be " ++ squote ++ "M" ++ squote ++
    " or " ++ squote ++ "F" ++ squote

/-- The date-parsing step and, on success, the construction of the
`params_list` tuple (lines 416-434). The tobacco coercion happens here,
after both dates parse, and never rejects. -/
def finishRow (row : RawRow) (st g em : String) : Sum ContactParams String :=
  match parseDate (edOf row), parseDate (bdOf row) with
  | some ed, some bd =>
    .inl { first_name := strip (getField row "First Name"),
           last_name := strip (getField row "Last Name"),
           email := em,
           current_carrier := strip (getField row "Current Carrier"),
           plan_type := strip (getField row "Plan Type"),
           effective_date := ed.iso,
           birth_date := bd.iso,
           tobacco_user := if tobacco_truthy row then 1 else 0,
           gender := g,
           state := st,
           zip_code := zipOf row }
  | _, _ => .inr "Invalid date format. Dates should be YYYY-MM-DD"

/-- The body of the per-row loop (lines 366-443), split into its ordered
rules; returns either the accepted tuple or the single rejection reason.
`zl` is the `ZIP_DATA` lookup restricted to the `'state'` entry. -/
def validateCore (zl : String → Option String) (existing_emails : List String)
    (ow : Bool) (row : RawRow) : Sum ContactParams String :=
  if missing_values row ≠ [] then
    .inr ("Missing values for: " ++ joinCommaSpace (missing_values row))
  else
    match zl (zipOf row) with
    | none => .inr ("Invalid ZIP code: " ++ zipOf row)
    | some st =>
      if genderOf row = "M" ∨ genderOf row = "F" then
        if ow = false ∧ existing_emails.contains (emailOf row) = true then
          .inr ("Email already exists: " ++ getField row "Email")
        else
          finishRow row st (genderOf row) (emailOf row)
      else
        .inr (genderMsg (genderOf row))

/-- The error-row dict built at each rejection site: row number, the ten
original (untrimmed) values, the reason. -/
def mkErrorRow (n : Nat) (row : RawRow) (reason : String) : ErrorRow :=
  { rowNum := n,
    values := required_fields_ordered.map (getField row),
    error := reason }

/-- One loop iteration: rejection reasons are wrapped into the error row
for this row number. -/
def validateRow (zl : String → Option String) (existing_emails : List String)
    (ow : Bool) (n : Nat) (row : RawRow) : Sum ContactParams ErrorRow :=
  match validateCore zl existing_emails ow row with
  | .inl p => .inl p
  | .inr reason => .inr (mkErrorRow n row reason)

/-- The whole loop `for row_num, row in enumerate(csv_reader, start=2)`:
the accepted tuples (`params_list`; `valid_rows` has the same length)
and the rejected rows (`error_rows`), both in file order. The email
snapshot `existing_emails` is fixed for the whole traversal. -/
def processRows (zl : String → Option String) (existing_emails : List String)
    (ow : Bool) : Nat → List RawRow → List ContactParams × List ErrorRow
  | _, [] => ([], [])
  | n, r :: rs =>
    match validateRow zl existing_emails ow n r with
    | .inl p =>
      let pr := processRows zl existing_emails ow (n + 1) rs
      (p :: pr.1, pr.2)
    | .inr e =>
      let pr := processRows zl existing_emails ow (n + 1) rs
      (pr.1, e :: pr.2)

/-- csv-module field quoting (QUOTE_MINIMAL). -/
def csvQuoteNeeded (s : String) : Bool :=
  s.toList.any (fun c => c == ',' || c == '"' || c == '\n' || c == '\r')

def csvEscape (s : String) : String :=
  String.join (s.toList.map (fun c => if c == '"' then "\"\"" else String.singleton c))

def csvField (s : String) : String :=
  if csvQuoteNeeded s then "\"" ++ csvEscape s ++ "\"" else s

def csvLine (fields : List String) : String :=
  String.intercalate "," (fields.map csvField) ++ "\r\n"

/-- The error CSV of lines 487-495: header `Row, <ten fields>, Error`,
then one line per rejected row in order. -/
def renderErrorCsv (es : List ErrorRow) : String :=
  csvLine (["Row"] ++ required_fields_ordered ++ ["Error"]) ++
    String.join (es.map (fun e => csvLine ([toString e.rowNum] ++ e.values ++ [e.error])))

/-- The JSON body returned by the endpoint on every path. -/
structure ImportResult where
  success : Bool
  message : String
  error_csv : Option String
  total_rows : Nat
  error_rows : Nat
  valid_rows : Nat
deriving Repr, DecidableEq

/-- The parsed upload: `fieldnames` is `none` for a file with no header
line at all, else the header list; `rows` the data records. -/
structure CsvFile where
  fieldnames : Option (List String)
  rows : List RawRow

/-- The storage collaborator: the stored contact emails (as returned by
`SELECT email FROM contacts`), whether that snapshot read succeeds, and
whether the single bulk write succeeds; the `Err` fields are the
`str(e)` of the corresponding exception. -/
structure DbState where
  storedEmails : List String
  fetchOk : Bool
  fetchErr : String
  writeOk : Bool
  writeErr : String

/-- The zero-filled failure body of the outer `except` handler
(lines 521-531). -/
def structuralResult (msg : String) : ImportResult :=
  { success := false, message := msg, error_csv := none,
    total_rows := 0, error_rows := 0, valid_rows := 0 }

/-- `str(TypeError)` raised by `set(None)` when `fieldnames` is `None`. -/
def noneTypeMsg : String :=
  squote ++ "NoneType" ++ squote ++ " object is not iterable"

/-- `required_fields - headers` (set difference; embedding order fixed
to the declared order). -/
def missingHeaders (hd : List String) : List String :=
  required_fields_ordered.filter (fun f => !(hd.contains f))

/-- `required_fields.issubset(headers)`. -/
def headersOk (hd : List String) : Bool :=
  required_fields_ordered.all (fun f => hd.contains f)

/-- `existing_emails`: lower-cased snapshot, read only when overwrite is
disabled (lines 361-364); the empty set otherwise. -/
def snapshotEmails (db : DbState) (ow : Bool) : List String :=
  if ow then [] else db.storedEmails.map lower

/-- Lines 445-517: the single bulk write over `params_list` and the
assembly of the result. `inserted_count` stays 0 when `params_list` is
empty; a failed write returns the all-rows-as-errors body of lines
474-484; otherwise the error-report body (lines 497-507) or the clean
success body (lines 510-517). -/
def finishImport (db : DbState) (params : List ContactParams)
    (errors : List ErrorRow) : ImportResult :=
  if params ≠ [] ∧ db.writeOk = false then
    { success := false,
      message := "Error inserting contacts: " ++ db.writeErr,
      error_csv := none,
      total_rows := params.length + errors.length,
      error_rows := errors.length + params.length,
      valid_rows := 0 }
  else
    let inserted := if params ≠ [] then params.length else 0
    if errors ≠ [] then
      { success := true,
        message := "Found " ++ toString errors.length ++
          " rows with errors. Successfully imported " ++ toString inserted ++ " rows.",
        error_csv := some (renderErrorCsv errors),
        total_rows := params.length + errors.length,
        error_rows := errors.length,
        valid_rows := inserted }
    else
      { success := true,
        message := "Successfully imported " ++ toString inserted ++ " rows",
        error_csv := none,
        total_rows := inserted,
        error_rows := 0,
        valid_rows := inserted }

/-- The endpoint `upload_contacts` (lines 314-531). An `input` of
`.error msg` stands for an exception before parsing (unreadable upload);
a fetch failure or an absent header line also land in the outer
handler's `structuralResult`. -/
def upload_contacts (zl : String → Option String) (db : DbState)
    (overwrite_duplicates : Bool) (input : Except String CsvFile) : ImportResult :=
  match input with
  | .error msg => structuralResult msg
  | .ok file =>
    match file.fieldnames with
    | none => structuralResult noneTypeMsg
    | some hd =>
      if headersOk hd = false then
        { success := false,
          message := "Missing required columns: " ++ joinCommaSpace (missingHeaders hd),
          error_csv := none, total_rows := 0, error_rows := 0, valid_rows := 0 }
      else if overwrite_duplicates = false ∧ db.fetchOk = false then
        structuralResult db.fetchErr
      else
        let pr := processRows zl (snapshotEmails db overwrite_duplicates)
          overwrite_duplicates 2 file.rows
        finishImport db pr.1 pr.2

/-!
Concrete fixtures used by the witness theorems: a one-entry ZIP table,
a header list, and rows exercising the individual rules.
-/

/-- A ZIP table knowing only 12345 ↦ NY. -/
def zlT : String → Option String := fun z => if z = "12345" then some "NY" else none

/-- A header line containing exactly the ten required columns. -/
def hdT : List String := required_fields_ordered

/-- Build a row from the ten required values in order. -/
def mkRow (fn ln em cc pt ed bd tu g zp : String) : RawRow :=
  [("First Name", fn), ("Last Name", ln), ("Email", em), ("Current Carrier", cc),
   ("Plan Type", pt), ("Effective Date", ed), ("Birth Date", bd),
   ("Tobacco User", tu), ("Gender", g), ("ZIP Code", zp)]

/-- A fully valid row (email `Ann@X.com`, tobacco `Yes`). -/
def rowGood : RawRow :=
  mkRow "Ann" "Lee" "Ann@X.com" "Aetna" "G" "2024-01-01" "1950-06-15" "Yes" "f" "12345"

/-- A valid non-tobacco row. -/
def rowTob : RawRow :=
  mkRow "Bob" "Kay" "Bob@X.com" "Cigna" "N" "2024-01-01" "1950-06-15" "nope" "m" "12345"

/-- Two valid rows sharing the same fresh email up to trimming and
casing. -/
def rowDupA : RawRow :=
  mkRow "Ann" "Lee" "new@x.com" "Aetna" "G" "2024-01-01" "1950-06-15" "no" "F" "12345"

def rowDupB : RawRow :=
  mkRow "Bob" "Kay" " New@X.com " "Cigna" "N" "2024-02-01" "1951-07-16" "no" "M" "12345"

/-- A healthy database with one stored contact email. -/
def dbT : DbState := ⟨["Old@X.com"], true, "fetch down", true, "write down"⟩

/-- A database whose bulk write fails. -/
def dbW : DbState := ⟨[], true, "fetch down", false, "boom"⟩

/-- A database whose email-snapshot read fails. -/
def dbF : DbState := ⟨[], false, "db unavailable", true, "boom"⟩

/-!
Helper lemmas shared by the claim theorems.
-/

theorem finishImport_counts (db : DbState) (ps : List ContactParams) (es : List ErrorRow) :
    (finishImport db ps es).valid_rows + (finishImport db ps es).error_rows
      = (finishImport db ps es).total_rows := by
  by_cases hps : ps = [] <;> by_cases hes : es = [] <;>
      by_cases hw : db.writeOk = false <;>
    simp [finishImport, hps, hes, hw, Nat.add_comm]

theorem validateRow_isLeft (zl : String → Option String) (ex : List String)
    (ow : Bool) (n : Nat) (row : RawRow) :
    (validateRow zl ex ow n row).isLeft = (validateCore zl ex ow row).isLeft := by
  unfold validateRow
  cases validateCore zl ex ow row <;> rfl

theorem processRows_total_length (zl : String → Option String) (ex : List String)
    (ow : Bool) : ∀ (n : Nat) (rows : List RawRow),
    (processRows zl ex ow n rows).1.length + (processRows zl ex ow n rows).2.length
      = rows.length := by
  intro n rows
  induction rows generalizing n with
  | nil => rfl
  | cons r rs ih =>
    unfold processRows
    rcases h : validateRow zl ex ow n r with p | e <;>
      · simp [h, ← ih (n + 1)]
        omega

theorem processRows_accept_count (zl : String → Option String) (ex : List String)
    (ow : Bool) : ∀ (n : Nat) (rows : List RawRow),
    (processRows zl ex ow n rows).1.length
      = rows.countP (fun r => (validateCore zl ex ow r).isLeft) := by
  intro n rows
  induction rows generalizing n with
  | nil => rfl
  | cons r rs ih =>
    have hL := validateRow_isLeft zl ex ow n r
    unfold processRows
    rcases h : validateRow zl ex ow n r with p | e <;> rw [h] at hL <;>
      simp [List.countP_cons, ih (n + 1), ← hL]

theorem finishImport_valid_rows (db : DbState) (ps : List ContactParams)
    (es : List ErrorRow) (hw : db.writeOk = true) :
    (finishImport db ps es).valid_rows = ps.length := by
  by_cases hps : ps = [] <;> by_cases hes : es = [] <;>
    simp [finishImport, hps, hes, hw]

theorem processRows_nil (zl : String → Option String) (ex : List String)
    (ow : Bool) (n : Nat) : processRows zl ex ow n [] = ([], []) := rfl

theorem upload_ok_finish (zl : String → Option String) (db : DbState) (ow : Bool)
    (file : CsvFile) (hd : List String)
    (hf : file.fieldnames = some hd) (hh : headersOk hd = true)
    (hfo : ¬(ow = false ∧ db.fetchOk = false)) :
    upload_contacts zl db ow (.ok file)
      = finishImport db (processRows zl (snapshotEmails db ow) ow 2 file.rows).1
          (processRows zl (snapshotEmails db ow) ow 2 file.rows).2 := by
  simp only [upload_contacts, hf, hh, if_neg hfo]
  simp only [Bool.true_eq_false, if_false]

theorem upload_bulk_fail (zl : String → Option String) (db : DbState) (ow : Bool)
    (file : CsvFile) (hd : List String)
    (hf : file.fieldnames = some hd) (hh : headersOk hd = true)
    (hfo : ¬(ow = false ∧ db.fetchOk = false)) (hw : db.writeOk = false)
    (hne : (processRows zl (snapshotEmails db ow) ow 2 file.rows).1 ≠ []) :
    upload_contacts zl db ow (.ok file)
      = { success := false,
          message := "Error inserting contacts: " ++ db.writeErr,
          error_csv := none,
          total_rows := file.rows.length,
          error_rows := file.rows.length,
          valid_rows := 0 } := by
  have hlen := processRows_total_length zl (snapshotEmails db ow) ow 2 file.rows
  simp only [upload_contacts, hf, hh, if_neg hfo]
  simp only [Bool.true_eq_false, if_false]
  rw [finishImport, if_pos ⟨hne, hw⟩]
  simp [Nat.add_comm, ← hlen]

/-- C1: for every upload import invocation — header failure, structural
failure, bulk-write failure, partial success, full success, zero data
rows — the returned result satisfies
`valid_rows + error_rows = total_rows`. -/
theorem upload_counts_consistent (zl : String → Option String) (db : DbState)
    (ow : Bool) (input : Except String CsvFile) :
    (upload_contacts zl db ow input).valid_rows
        + (upload_contacts zl db ow input).error_rows
      = (upload_contacts zl db ow input).total_rows := by
  rcases input with msg | file
  · simp [upload_contacts, structuralResult]
  · rcases hf : file.fieldnames with _ | hd
    · simp [upload_contacts, hf, structuralResult]
    · by_cases hh : headersOk hd = false
      · simp [upload_contacts, hf, hh]
      · by_cases hfo : ow = false ∧ db.fetchOk = false
        · simp [upload_contacts, hf, hh, hfo, structuralResult]
        · simp only [upload_contacts, hf, hh, hfo, if_false, if_neg hfo, Bool.false_eq_true]
          exact finishImport_counts db _ _

/-- Rows that each violate two rules at once, used to witness the rule
order: later faults are masked by the earlier rule's reason. -/
def rowW1 : RawRow :=
  mkRow "" "Lee" "Ann@X.com" "Aetna" "G" "2024-01-01" "1950-06-15" "no" "F" "00000"

def rowW2 : RawRow :=
  mkRow "Ann" "Lee" "a@x.com" "Aetna" "G" "2024-01-01" "1950-06-15" "no" "X" "00000"

def rowW3 : RawRow :=
  mkRow "Ann" "Lee" "Old@X.com" "Aetna" "G" "2024-01-01" "1950-06-15" "no" "X" "12345"

def rowW4 : RawRow :=
  mkRow "Ann" "Lee" "Old@X.com" "Aetna" "G" "2024-99-01" "1950-06-15" "no" "M" "12345"

def rowW5 : RawRow :=
  mkRow "Ann" "Lee" "new@x.com" "Aetna" "G" "bad" "1950-06-15" "no" "M" "12345"

/-- C2: the per-row rules are evaluated in the fixed order (required
values, ZIP validity, gender, duplicate email, date parsing) and the
first failing rule wins: the rejected row carries exactly the reason of
the first failing rule and later rules are not consulted; in particular
a row both missing a required field and carrying an invalid ZIP is
rejected with the missing-field reason only. -/
theorem validator_first_failure_wins (zl : String → Option String)
    (ex : List String) (ow : Bool) (n : Nat) (row : RawRow) :
    (missing_values row ≠ [] →
      validateRow zl ex ow n row
        = .inr (mkErrorRow n row
            ("Missing values for: " ++ joinCommaSpace (missing_values row))))
    ∧ (missing_values row = [] → zl (zipOf row) = none →
      validateRow zl ex ow n row
        = .inr (mkErrorRow n row ("Invalid ZIP code: " ++ zipOf row)))
    ∧ (∀ st, missing_values row = [] → zl (zipOf row) = some st →
      ¬(genderOf row = "M" ∨ genderOf row = "F") →
      validateRow zl ex ow n row
        = .inr (mkErrorRow n row (genderMsg (genderOf row))))
    ∧ (∀ st, missing_values row = [] → zl (zipOf row) = some st →
      (genderOf row = "M" ∨ genderOf row = "F") →
      ow = false → ex.contains (emailOf row) = true →
      validateRow zl ex ow n row
        = .inr (mkErrorRow n row ("Email already exists: " ++ getField row "Email")))
    ∧ (∀ st, missing_values row = [] → zl (zipOf row) = some st →
      (genderOf row = "M" ∨ genderOf row = "F") →
      ¬(ow = false ∧ ex.contains (emailOf row) = true) →
      (parseDate (edOf row) = none ∨ parseDate (bdOf row) = none) →
      validateRow zl ex ow n row
        = .inr (mkErrorRow n row "Invalid date format. Dates should be YYYY-MM-DD")) := by
  refine ⟨?_, ?_, ?_, ?_, ?_⟩
  · intro h
    simp [validateRow, validateCore, h]
  · intro h1 h2
    simp [validateRow, validateCore, h1, h2]
  · intro st h1 h2 h3
    simp [validateRow, validateCore, h1, h2, h3]
  · intro st h1 h2 h3 h4 h5
    have h5m : emailOf row ∈ ex := by simpa using h5
    simp [validateRow, validateCore, h1, h2, h3, h4, h5m]
  · intro st h1 h2 h3 h4 h5
    simp only [validateRow, validateCore, h1, h2]
    rw [if_neg (by simp [h1])]
    rw [if_pos h3, if_neg h4]
    rcases h5 with h | h <;>
      rcases he : parseDate (edOf row) with _ | d1 <;>
      rcases hb : parseDate (bdOf row) with _ | d2 <;>
      simp_all [finishRow]

/-- Witness for C2: five doubly-faulty concrete rows, each rejected with
the first rule's reason only. -/
theorem validator_first_failure_wins_witness :
    validateRow zlT [] false 2 rowW1
        = .inr (mkErrorRow 2 rowW1 "Missing values for: First Name")
    ∧ validateRow zlT [] false 2 rowW2
        = .inr (mkErrorRow 2 rowW2 "Invalid ZIP code: 00000")
    ∧ validateRow zlT ["old@x.com"] false 2 rowW3
        = .inr (mkErrorRow 2 rowW3 (genderMsg "X"))
    ∧ validateRow zlT ["old@x.com"] false 2 rowW4
        = .inr (mkErrorRow 2 rowW4 "Email already exists: Old@X.com")
    ∧ validateRow zlT ["old@x.com"] false 2 rowW5
        = .inr (mkErrorRow 2 rowW5 "Invalid date format. Dates should be YYYY-MM-DD") :=
  ⟨(validator_first_failure_wins zlT [] false 2 rowW1).1 (by decide),
   (validator_first_failure_wins zlT [] false 2 rowW2).2.1 (by decide) (by decide),
   (validator_first_failure_wins zlT ["old@x.com"] false 2 rowW3).2.2.1 "NY"
     (by decide) (by decide) (by decide),
   (validator_first_failure_wins zlT ["old@x.com"] false 2 rowW4).2.2.2.1 "NY"
     (by decide) (by decide) (by decide) (by decide) (by decide),
   (validator_first_failure_wins zlT ["old@x.com"] false 2 rowW5).2.2.2.2 "NY"
     (by decide) (by decide) (by decide) (by decide) (by decide)⟩

/-- C3 as stated is false: a bulk-write failure (a structural failure in
the claim's taxonomy) is reported with success=false but with counts
equal to the whole file, not zero-filled, and with a prefixed message
rather than the raw error. Concretely: one valid row, a database whose
bulk write fails with raw error `boom`. -/
theorem structural_failure_zero_counts_cex :
    (upload_contacts zlT dbW false (.ok ⟨some hdT, [rowGood]⟩)).success = false
    ∧ (upload_contacts zlT dbW false (.ok ⟨some hdT, [rowGood]⟩)).total_rows = 1
    ∧ (upload_contacts zlT dbW false (.ok ⟨some hdT, [rowGood]⟩)).error_rows = 1
    ∧ (upload_contacts zlT dbW false (.ok ⟨some hdT, [rowGood]⟩)).message
        = "Error inserting contacts: boom" := by
  refine ⟨?_, ?_, ?_, ?_⟩ <;> decide

/-- C3 (amended): a structural failure arising before row processing —
unreadable/malformed input or a failing email-snapshot read — yields
success=false, zero-filled counts and the raw error message; a
bulk-write exception instead yields success=false and valid_rows=0 but
total_rows and error_rows both equal to the number of data rows, with
the message `Error inserting contacts: <raw error>`. On every such path
no rows are considered imported (valid_rows = 0). -/
theorem structural_failure_paths (zl : String → Option String) (db : DbState)
    (ow : Bool) :
    (∀ msg, upload_contacts zl db ow (.error msg)
      = { success := false, message := msg, error_csv := none,
          total_rows := 0, error_rows := 0, valid_rows := 0 })
    ∧ (∀ file hd, file.fieldnames = some hd → headersOk hd = true →
      ow = false → db.fetchOk = false →
      upload_contacts zl db ow (.ok file)
        = { success := false, message := db.fetchErr, error_csv := none,
            total_rows := 0, error_rows := 0, valid_rows := 0 })
    ∧ (∀ file hd, file.fieldnames = some hd → headersOk hd = true →
      (ow = true ∨ db.fetchOk = true) → db.writeOk = false →
      (processRows zl (snapshotEmails db ow) ow 2 file.rows).1 ≠ [] →
      upload_contacts zl db ow (.ok file)
        = { success := false,
            message := "Error inserting contacts: " ++ db.writeErr,
            error_csv := none,
            total_rows := file.rows.length,
            error_rows := file.rows.length,
            valid_rows := 0 }) := by
  refine ⟨?_, ?_, ?_⟩
  · intro msg
    rfl
  · intro file hd hf hh how hfetch
    simp [upload_contacts, hf, hh, how, hfetch, structuralResult]
  · intro file hd hf hh hfo hw hne
    have hfo' : ¬(ow = false ∧ db.fetchOk = false) := by
      rcases hfo with h | h <;> simp [h]
    exact upload_bulk_fail zl db ow file hd hf hh hfo' hw hne

/-- Witness for C3 (amended): the three structural paths at concrete
inputs. -/
theorem structural_failure_paths_witness :
    upload_contacts zlT dbT false (.error "bad upload")
      = { success := false, message := "bad upload", error_csv := none,
          total_rows := 0, error_rows := 0, valid_rows := 0 }
    ∧ upload_contacts zlT dbF false (.ok ⟨some hdT, [rowGood]⟩)
      = { success := false, message := "db unavailable", error_csv := none,
          total_rows := 0, error_rows := 0, valid_rows := 0 }
    ∧ upload_contacts zlT dbW false (.ok ⟨some hdT, [rowGood]⟩)
      = { success := false, message := "Error inserting contacts: boom",
          error_csv := none, total_rows := 1, error_rows := 1, valid_rows := 0 } :=
  ⟨(structural_failure_paths zlT dbT false).1 "bad upload",
   (structural_failure_paths zlT dbF false).2.1 ⟨some hdT, [rowGood]⟩ hdT rfl
     (by decide) rfl rfl,
   (structural_failure_paths zlT dbW false).2.2 ⟨some hdT, [rowGood]⟩ hdT rfl
     (by decide) (Or.inr rfl) rfl (by decide)⟩

/-- C4: if the single bulk write fails, none of the accepted rows are
considered imported: valid_rows = 0 and every row of the file —
accepted and rejected alike — is counted as an error, so
error_rows = total_rows = the number of data rows. -/
theorem bulk_write_failure_all_rows_error (zl : String → Option String)
    (db : DbState) (ow : Bool) (file : CsvFile) (hd : List String)
    (hf : file.fieldnames = some hd) (hh : headersOk hd = true)
    (hfo : ow = true ∨ db.fetchOk = true) (hw : db.writeOk = false)
    (hne : (processRows zl (snapshotEmails db ow) ow 2 file.rows).1 ≠ []) :
    (upload_contacts zl db ow (.ok file)).valid_rows = 0
    ∧ (upload_contacts zl db ow (.ok file)).error_rows
        = (upload_contacts zl db ow (.ok file)).total_rows
    ∧ (upload_contacts zl db ow (.ok file)).total_rows = file.rows.length := by
  have hfo' : ¬(ow = false ∧ db.fetchOk = false) := by
    rcases hfo with h | h <;> simp [h]
  rw [upload_bulk_fail zl db ow file hd hf hh hfo' hw hne]
  exact ⟨rfl, rfl, rfl⟩

/-- Witness for C4: one accepted and one rejected row, failing write;
the result counts both rows as errors and no row as imported. -/
theorem bulk_write_failure_all_rows_error_witness :
    (upload_contacts zlT dbW false (.ok ⟨some hdT, [rowGood, rowW2]⟩)).valid_rows = 0
    ∧ (upload_contacts zlT dbW false (.ok ⟨some hdT, [rowGood, rowW2]⟩)).error_rows
        = (upload_contacts zlT dbW false (.ok ⟨some hdT, [rowGood, rowW2]⟩)).total_rows
    ∧ (upload_contacts zlT dbW false (.ok ⟨some hdT, [rowGood, rowW2]⟩)).total_rows = 2 :=
  bulk_write_failure_all_rows_error zlT dbW false ⟨some hdT, [rowGood, rowW2]⟩ hdT rfl
    (by decide) (Or.inr rfl) rfl (by decide)

/-- C5: if the header set lacks any of the ten required columns, the
whole import fails at once with success=false, a message naming the
missing columns, all counts zero and no error report; no row is
processed. -/
theorem header_failure_immediate (zl : String → Option String) (db : DbState)
    (ow : Bool) (file : CsvFile) (hd : List String)
    (hf : file.fieldnames = some hd) (hh : headersOk hd = false) :
    upload_contacts zl db ow (.ok file)
      = { success := false,
          message := "Missing required columns: " ++ joinCommaSpace (missingHeaders hd),
          error_csv := none, total_rows := 0, error_rows := 0, valid_rows := 0 } := by
  simp [upload_contacts, hf, hh]

/-- Witness for C5: a header lacking exactly `Email`; the message names
the one missing column. -/
theorem header_failure_immediate_witness :
    upload_contacts zlT dbT false
        (.ok ⟨some (hdT.erase "Email"), [rowGood]⟩)
      = { success := false,
          message := "Missing required columns: Email",
          error_csv := none, total_rows := 0, error_rows := 0, valid_rows := 0 } :=
  header_failure_immediate zlT dbT false ⟨some (hdT.erase "Email"), [rowGood]⟩
    (hdT.erase "Email") rfl (by decide)

/-- C6: with duplicate-overwrite disabled, a row that passed the earlier
rules is rejected for duplicate email exactly when its trimmed,
lower-cased email is in the snapshot of stored emails, with the reason
carrying the original email casing; with overwrite enabled the check is
skipped entirely — the outcome of every row is independent of the
snapshot. -/
theorem duplicate_email_rule (zl : String → Option String) (ex : List String)
    (row : RawRow) (st : String) :
    (missing_values row = [] → zl (zipOf row) = some st →
      (genderOf row = "M" ∨ genderOf row = "F") →
      ex.contains (emailOf row) = true →
      validateCore zl ex false row
        = .inr ("Email already exists: " ++ getField row "Email"))
    ∧ (missing_values row = [] → zl (zipOf row) = some st →
      (genderOf row = "M" ∨ genderOf row = "F") →
      ex.contains (emailOf row) = false →
      validateCore zl ex false row
        = finishRow row st (genderOf row) (emailOf row))
    ∧ (∀ ex2 row2, validateCore zl ex true row2 = validateCore zl ex2 true row2) := by
  refine ⟨?_, ?_, ?_⟩
  · intro h1 h2 h3 h4
    have h4m : emailOf row ∈ ex := by simpa using h4
    simp [validateCore, h1, h2, h3, h4m]
  · intro h1 h2 h3 h4
    have h4m : emailOf row ∉ ex := by simpa using h4
    simp [validateCore, h1, h2, h3, h4m]
  · intro ex2 row2
    unfold validateCore
    cases zl (zipOf row2) <;> simp

/-- Witness for C6: a stored duplicate is rejected with the original
casing; a fresh email proceeds to the date step; with overwrite the
snapshot is irrelevant. -/
theorem duplicate_email_rule_witness :
    validateCore zlT ["ann@x.com"] false rowGood
      = .inr "Email already exists: Ann@X.com"
    ∧ validateCore zlT ["old@x.com"] false rowGood
      = finishRow rowGood "NY" "F" "ann@x.com"
    ∧ validateCore zlT ["ann@x.com"] true rowGood = validateCore zlT [] true rowGood :=
  ⟨(duplicate_email_rule zlT ["ann@x.com"] rowGood "NY").1
      (by decide) (by decide) (by decide) (by decide),
   (duplicate_email_rule zlT ["old@x.com"] rowGood "NY").2.1
      (by decide) (by decide) (by decide) (by decide),
   (duplicate_email_rule zlT ["ann@x.com"] rowGood "NY").2.2 [] rowGood⟩

/-- C7: every import that completes without a structural exception and
without a header failure reports success=true — even when every data
row is rejected — and a file with correct headers and zero data rows
yields the zero-count success result with no error report. -/
theorem success_without_structural_failure (zl : String → Option String)
    (db : DbState) (ow : Bool) (file : CsvFile) (hd : List String)
    (hf : file.fieldnames = some hd) (hh : headersOk hd = true)
    (hfo : ow = true ∨ db.fetchOk = true)
    (hw : db.writeOk = true
      ∨ (processRows zl (snapshotEmails db ow) ow 2 file.rows).1 = []) :
    (upload_contacts zl db ow (.ok file)).success = true
    ∧ (file.rows = [] →
      upload_contacts zl db ow (.ok file)
        = { success := true, message := "Successfully imported 0 rows",
            error_csv := none, total_rows := 0, error_rows := 0, valid_rows := 0 }) := by
  have hfo' : ¬(ow = false ∧ db.fetchOk = false) := by
    rcases hfo with h | h <;> simp [h]
  constructor
  · simp only [upload_contacts, hf, hh, if_neg hfo']
    simp only [Bool.true_eq_false, if_false]
    have hnw : ¬((processRows zl (snapshotEmails db ow) ow 2 file.rows).1 ≠ []
        ∧ db.writeOk = false) := by
      rcases hw with h | h <;> simp [h]
    rw [finishImport, if_neg hnw]
    by_cases hes : (processRows zl (snapshotEmails db ow) ow 2 file.rows).2 = [] <;>
      simp [hes]
  · intro hrows
    rw [upload_ok_finish zl db ow file hd hf hh hfo', hrows, processRows_nil]
    rfl

/-- Witness for C7: a file whose single row is rejected still succeeds;
a file with zero data rows gives the zero-count success result. -/
theorem success_without_structural_failure_witness :
    (upload_contacts zlT dbT false (.ok ⟨some hdT, [rowW2]⟩)).success = true
    ∧ upload_contacts zlT dbT false (.ok ⟨some hdT, []⟩)
      = { success := true, message := "Successfully imported 0 rows",
          error_csv := none, total_rows := 0, error_rows := 0, valid_rows := 0 } :=
  ⟨(success_without_structural_failure zlT dbT false ⟨some hdT, [rowW2]⟩ hdT rfl
      (by decide) (Or.inr rfl) (Or.inl rfl)).1,
   (success_without_structural_failure zlT dbT false ⟨some hdT, []⟩ hdT rfl
      (by decide) (Or.inr rfl) (Or.inl rfl)).2 rfl⟩

/-- C8: every row whose two dates parse is accepted whatever its Tobacco
User value — the coercion never rejects — and the normalized
tobacco_user flag is 1 exactly when the trimmed, lower-cased value is
one of yes/true/1/y, else 0. -/
theorem tobacco_coercion (row : RawRow) (st g em : String) (d1 d2 : PDate)
    (h1 : parseDate (edOf row) = some d1) (h2 : parseDate (bdOf row) = some d2) :
    finishRow row st g em
      = .inl { first_name := strip (getField row "First Name"),
               last_name := strip (getField row "Last Name"),
               email := em,
               current_carrier := strip (getField row "Current Carrier"),
               plan_type := strip (getField row "Plan Type"),
               effective_date := d1.iso,
               birth_date := d2.iso,
               tobacco_user := if tobacco_truthy row = true then 1 else 0,
               gender := g, state := st, zip_code := zipOf row }
    ∧ (tobacco_truthy row = true
        ↔ lower (strip (getField row "Tobacco User")) ∈ ["yes", "true", "1", "y"]) := by
  constructor
  · simp [finishRow, h1, h2]
  · simp [tobacco_truthy, tobaccoOf]

/-- Witness for C8: `Yes` coerces to 1 and the row is accepted; `nope`
coerces to 0 and the row is still accepted. -/
theorem tobacco_coercion_witness :
    finishRow rowGood "NY" "F" "ann@x.com"
      = .inl ⟨"Ann", "Lee", "ann@x.com", "Aetna", "G", "2024-01-01", "1950-06-15",
              1, "F", "NY", "12345"⟩
    ∧ finishRow rowTob "NY" "M" "bob@x.com"
      = .inl ⟨"Bob", "Kay", "bob@x.com", "Cigna", "N", "2024-01-01", "1950-06-15",
              0, "M", "NY", "12345"⟩
    ∧ (tobacco_truthy rowGood = true ↔ "yes" ∈ ["yes", "true", "1", "y"]) :=
  ⟨(tobacco_coercion rowGood "NY" "F" "ann@x.com" ⟨2024, 1, 1⟩ ⟨1950, 6, 15⟩
      (by decide) (by decide)).1,
   (tobacco_coercion rowTob "NY" "M" "bob@x.com" ⟨2024, 1, 1⟩ ⟨1950, 6, 15⟩
      (by decide) (by decide)).1,
   (tobacco_coercion rowGood "NY" "F" "ann@x.com" ⟨2024, 1, 1⟩ ⟨1950, 6, 15⟩
      (by decide) (by decide)).2⟩

/-- C9: with overwrite disabled the email snapshot is fixed before any
row is processed and never updated during the loop, so acceptance is
decided row-by-row against that one snapshot: when the write succeeds,
valid_rows counts exactly the rows individually accepted against the
pre-import snapshot — rows sharing an email absent from the store are
therefore all accepted and counted, never rejected as intra-file
duplicates. -/
theorem snapshot_fixed_intra_file_duplicates (zl : String → Option String)
    (db : DbState) (file : CsvFile) (hd : List String)
    (hf : file.fieldnames = some hd) (hh : headersOk hd = true)
    (hfetch : db.fetchOk = true) (hw : db.writeOk = true) :
    (upload_contacts zl db false (.ok file)).valid_rows
      = file.rows.countP
          (fun r => (validateCore zl (snapshotEmails db false) false r).isLeft) := by
  have hfo' : ¬((false : Bool) = false ∧ db.fetchOk = false) := by simp [hfetch]
  rw [upload_ok_finish zl db false file hd hf hh hfo']
  rw [finishImport_valid_rows db _ _ hw, processRows_accept_count]

/-- Witness for C9: two rows with the same fresh email (up to trimming
and case) are both accepted and both counted in valid_rows. -/
theorem snapshot_fixed_intra_file_duplicates_witness :
    (upload_contacts zlT dbT false (.ok ⟨some hdT, [rowDupA, rowDupB]⟩)).valid_rows = 2 :=
  snapshot_fixed_intra_file_duplicates zlT dbT ⟨some hdT, [rowDupA, rowDupB]⟩ hdT
    rfl (by decide) rfl rfl

/-- C10: a file with no header line at all (empty content) is reported
through the structural-failure path: building the header set from the
absent field-name list raises TypeError, and the outer handler returns
success=false with the raw exception message and zero counts — not a
missing-columns message. -/
theorem empty_file_structural (zl : String → Option String) (db : DbState)
    (ow : Bool) (rows : List RawRow) :
    upload_contacts zl db ow (.ok ⟨none, rows⟩)
      = { success := false, message := noneTypeMsg, error_csv := none,
          total_rows := 0, error_rows := 0, valid_rows := 0 } := rfl

end MedicarePortal
